import Mathlib

/-!
Verification of the ockam vault configuration fragment
(`implementations/c`): the provider-routing engine, the preprocessor
configuration files, the Microchip hardware-interface descriptor, and the
cryptographic primitive contracts (HKDF, AES-GCM) the routing table brokers.

The three header files under `implementations/c` are embedded directly.
The routing/dispatch engine, vault facade and primitive implementations are
declared by the spec but their C sources are not part of the fragment; those
parts are modelled from the spec, each such definition marked
`Modelled from the spec:` in its doc comment.
-/

set_option maxRecDepth 4000

namespace OckamVault

/-- Closed set of vault error kinds (spec section 7). -/
inductive VErr where
  | NotReady
  | InvalidConfig
  | InvalidInput
  | Unsupported
  | DeviceAbsent
  | TransportError
  | SlotEmpty
  | EntropyExhausted
  | AuthenticationFailed
  | Internal
deriving DecidableEq, Repr

/-- Backend identifiers recognized by the configuration surface
(spec section 6): the mbedcrypto host software provider and the
Microchip ATECC508A secure element. -/
inductive BackendId where
  | hostMbedcrypto
  | tpmMicrochipAtecc508a
deriving DecidableEq, Repr

/-- Result of a backend call: a value or a typed failure. -/
inductive BResult (α : Type) where
  | ok (a : α)
  | err (e : VErr)
deriving DecidableEq, Repr

/-- Modelled from the spec: `ockam/vault/define.h` is included by both
configuration headers but is not part of the source fragment.  Per the
configuration files it must define one distinct bitmask tag per backend so
that slot macros can be formed by bitwise OR of tags. -/
def OCKAM_VAULT_TPM_MICROCHIP_ATECC508A : Nat := 1

/-- Modelled from the spec: the host software provider tag from
`ockam/vault/define.h` (see `OCKAM_VAULT_TPM_MICROCHIP_ATECC508A`). -/
def OCKAM_VAULT_HOST_MBEDCRYPTO : Nat := 2

/-- Identifier appearing in the test fixture routing configuration
(`test/ockam/vault/atecc508a/config/vault_config.h`, line 27) that is not
the name of any backend tag: `ockam/vault/define.h` defines
OCKAM_VAULT_HOST_MBEDCRYPTO, while the fixture's Init slot spells
OCKAM_VAULT_HOST_MBEDCRYTPO.  In a C preprocessor conditional an
identifier that remains after macro expansion evaluates as 0
(C17 6.10.1p4). -/
def OCKAM_VAULT_HOST_MBEDCRYTPO : Nat := 0

/-- Decodes a configuration bitmask into the ordered backend list of a
routing slot, device tag first, matching the declaration order used by the
fixture configuration (device OR host). -/
def maskBackends (mask : Nat) : List BackendId :=
  (if mask &&& OCKAM_VAULT_TPM_MICROCHIP_ATECC508A ≠ 0 then
    [BackendId.tpmMicrochipAtecc508a] else []) ++
  (if mask &&& OCKAM_VAULT_HOST_MBEDCRYPTO ≠ 0 then
    [BackendId.hostMbedcrypto] else [])

/-- Compile-time constant set of primitives (spec section 3). -/
inductive PrimitiveKind where
  | Init
  | Rand
  | EcdhKeyAgree
  | Hkdf
  | AesGcm
deriving DecidableEq, Repr

/-- Routing configuration: the declarative record of spec section 6,
five slots, each an ordered list of backends. -/
structure RoutingCfg where
  init : List BackendId
  rand : List BackendId
  ecdh : List BackendId
  hkdf : List BackendId
  aes_gcm : List BackendId
deriving DecidableEq, Repr

/-- Slot lookup: the RoutingTable as a mapping PrimitiveKind to backend
list. -/
def RoutingCfg.slot (cfg : RoutingCfg) : PrimitiveKind → List BackendId
  | PrimitiveKind.Init => cfg.init
  | PrimitiveKind.Rand => cfg.rand
  | PrimitiveKind.EcdhKeyAgree => cfg.ecdh
  | PrimitiveKind.Hkdf => cfg.hkdf
  | PrimitiveKind.AesGcm => cfg.aes_gcm

/-- Embedding of `implementations/c/config/vault_config.h` (the sample
vault config file): all five OCKAM_VAULT_CFG_ macros are defined with an
empty replacement list (lines 28 to 36), so every slot decodes to the
empty backend list. -/
def sampleRoutingCfg : RoutingCfg :=
  { init := [], rand := [], ecdh := [], hkdf := [], aes_gcm := [] }

/-- Embedding of
`implementations/c/test/ockam/vault/atecc508a/config/vault_config.h`
lines 27 to 35:
INIT = ATECC508A | MBEDCRYTPO, RAND = KEY_ECDH = HKDF = ATECC508A,
AES_GCM = MBEDCRYPTO. -/
def atecc508aTestRoutingCfg : RoutingCfg :=
  { init :=
      maskBackends
        (OCKAM_VAULT_TPM_MICROCHIP_ATECC508A ||| OCKAM_VAULT_HOST_MBEDCRYTPO)
    rand := maskBackends OCKAM_VAULT_TPM_MICROCHIP_ATECC508A
    ecdh := maskBackends OCKAM_VAULT_TPM_MICROCHIP_ATECC508A
    hkdf := maskBackends OCKAM_VAULT_TPM_MICROCHIP_ATECC508A
    aes_gcm := maskBackends OCKAM_VAULT_HOST_MBEDCRYPTO }

/-- Lifecycle states of a VaultContext (spec section 4.5). -/
inductive CtxState where
  | Uninitialized
  | Ready
  | Terminated
deriving DecidableEq, Repr

/-- Modelled from the spec: the VaultContext produced by create — routing
table, per-backend handles (the opaque handle payload is a type parameter),
per-backend Degraded flags, and the lifecycle state.  The create, destroy
and dispatch code is not part of the source fragment. -/
structure VaultContext (H : Type) where
  state : CtxState
  routing : RoutingCfg
  handles : List (BackendId × H)
  degraded : BackendId → Bool

/-- Modelled from the spec: dispatch over one routing slot (spec section
4.4) — backends are tried in declaration order, a backend whose handle is
Degraded is skipped, Unsupported triggers fallback to the next backend, and
any other result (success or failure) is returned immediately. -/
def tryBackends {α : Type} [DecidableEq α] (degraded : BackendId → Bool)
    (call : BackendId → BResult α) : List BackendId → BResult α
  | [] => BResult.err VErr.Unsupported
  | b :: rest =>
    if degraded b then tryBackends degraded call rest
    else if call b = BResult.err VErr.Unsupported then
      tryBackends degraded call rest
    else call b

/-- Modelled from the spec: the facade method for one primitive — NotReady
outside the Ready state, Internal on an empty routing slot (an invariant
violation), otherwise slot dispatch per section 4.4. -/
def vaultCall {α : Type} [DecidableEq α] {H : Type} (ctx : VaultContext H)
    (p : PrimitiveKind) (call : BackendId → BResult α) : BResult α :=
  match ctx.state with
  | CtxState.Ready =>
    if ctx.routing.slot p = [] then BResult.err VErr.Internal
    else tryBackends ctx.degraded call (ctx.routing.slot p)
  | _ => BResult.err VErr.NotReady

/-- Trace of one initialization pass over the Init slot: the overall
result, the backends whose init ran and succeeded (in declaration order),
the handles still live at the end, and the teardown calls emitted (in
order). -/
structure InitRun (H : Type) where
  result : BResult Unit
  initialized : List BackendId
  live : List (BackendId × H)
  tornDown : List BackendId

/-- Modelled from the spec: initialization of the Init slot (spec section
4.4) — every listed backend is initialized in declaration order; failure of
any aborts overall init and triggers teardown of already-initialized
backends in reverse order. -/
def runInit {H : Type} (initB : BackendId → BResult H) :
    List BackendId → InitRun H
  | [] => ⟨BResult.ok (), [], [], []⟩
  | b :: rest =>
    match initB b with
    | BResult.err e => ⟨BResult.err e, [], [], []⟩
    | BResult.ok h =>
      let r := runInit initB rest
      match r.result with
      | BResult.ok _ => ⟨BResult.ok (), b :: r.initialized, (b, h) :: r.live, r.tornDown⟩
      | BResult.err e => ⟨BResult.err e, b :: r.initialized, [], r.tornDown ++ [b]⟩

/-- Modelled from the spec: create(routing_cfg) — reject a configuration
with an empty slot as InvalidConfig, run the Init slot, and on success
produce a Ready context holding the initialized handles; alongside the
result, the teardown calls emitted during creation are reported. -/
def create {H : Type} (cfg : RoutingCfg) (initB : BackendId → BResult H) :
    BResult (VaultContext H) × List BackendId :=
  if cfg.init = [] ∨ cfg.rand = [] ∨ cfg.ecdh = [] ∨ cfg.hkdf = [] ∨
      cfg.aes_gcm = [] then
    (BResult.err VErr.InvalidConfig, [])
  else
    match (runInit initB cfg.init).result with
    | BResult.ok _ =>
      (BResult.ok ⟨CtxState.Ready, cfg, (runInit initB cfg.init).live,
        fun _ => false⟩, (runInit initB cfg.init).tornDown)
    | BResult.err e => (BResult.err e, (runInit initB cfg.init).tornDown)

/-- Backends holding a live handle in the context produced by a create
call; empty when create failed. -/
def okHandles {H : Type} (r : BResult (VaultContext H) × List BackendId) :
    List BackendId :=
  match r.1 with
  | BResult.ok v => v.handles.map Prod.fst
  | BResult.err _ => []

/-- Scenario 1 configuration of the spec: init lists the secure element
then the host backend, rand/ecdh/hkdf the secure element, aes_gcm the host
backend. -/
def scenario1Cfg : RoutingCfg :=
  { init := [BackendId.tpmMicrochipAtecc508a, BackendId.hostMbedcrypto]
    rand := [BackendId.tpmMicrochipAtecc508a]
    ecdh := [BackendId.tpmMicrochipAtecc508a]
    hkdf := [BackendId.tpmMicrochipAtecc508a]
    aes_gcm := [BackendId.hostMbedcrypto] }

/-- Ready vault context over the scenario 1 configuration with both
handles live and no backend Degraded, used to instantiate the dispatch
theorems. -/
def scenario1Ctx : VaultContext Unit :=
  { state := CtxState.Ready
    routing := scenario1Cfg
    handles := [(BackendId.tpmMicrochipAtecc508a, ()),
                (BackendId.hostMbedcrypto, ())]
    degraded := fun _ => false }

/-- Backend init behavior in which the secure element comes up but the
host backend fails with TransportError, exercising the rollback path. -/
def hostInitFails : BackendId → BResult Unit
  | BackendId.hostMbedcrypto => BResult.err VErr.TransportError
  | BackendId.tpmMicrochipAtecc508a => BResult.ok ()

/-- Embedding of VAULT_MICROCHIP_IFACE_e (microchip.h, lines 43 to 47):
the transport tag for the secure element. -/
inductive VAULT_MICROCHIP_IFACE_e where
  | VAULT_MICROCHIP_IFACE_I2C
  | VAULT_MICROCHIP_IFACE_SW
  | VAULT_MICROCHIP_IFACE_HID
deriving DecidableEq, Repr

/-- Stand-in for the opaque vendor type ATCAIfaceCfg from cryptoauthlib;
its contents are never inspected by the fragment. -/
def ATCAIfaceCfg : Type := Unit

/-- Type of the io_key field of VAULT_MICROCHIP_CFG_s: a 32-byte array
exactly when the compile-time flag VAULT_MICROCHIP_IO_KEY_EN equals
DEF_TRUE (microchip.h, lines 66 to 68), absent — here the unit type —
otherwise. -/
def IoKeyField : Bool → Type
  | true => { l : List Nat // l.length = 32 ∧ ∀ b ∈ l, b < 256 }
  | false => Unit

/-- Embedding of VAULT_MICROCHIP_CFG_s (microchip.h, lines 62 to 69),
parameterized by the compile-time build flag VAULT_MICROCHIP_IO_KEY_EN
that guards the io_key field; static_key_slot is a uint8_t, so any value
below 256 is representable. -/
structure VAULT_MICROCHIP_CFG_s (io_key_en : Bool) where
  iface : VAULT_MICROCHIP_IFACE_e
  iface_cfg : ATCAIfaceCfg
  static_key_slot : Nat
  static_key_slot_byte : static_key_slot < 256
  io_key : IoKeyField io_key_en

/-- Presence of the io_key field in a descriptor: determined by the build
flag that parameterizes the struct, not by the descriptor value. -/
def cfgHasIoKey {en : Bool} (_c : VAULT_MICROCHIP_CFG_s en) : Bool := en

/-- Transport kinds of the vendor-neutral hardware-interface descriptor
(spec section 3). -/
inductive Transport where
  | I2C
  | SingleWire
  | UsbHid
deriving DecidableEq, Repr

/-- Modelled from the spec: the vendor-neutral hardware-interface
descriptor consumed by create — transport kind, opaque transport
parameters, static key slot, optional 32-byte io_key.  The vault-creation
code validating it is not part of the source fragment. -/
structure HwIfaceDesc where
  transport : Transport
  transport_params : Nat
  static_key_slot : Nat
  io_key : Option (List Nat)

/-- Modelled from the spec: descriptor validation at vault creation — the
static key slot must lie in 0..15 and an io_key, when present, must be 32
bytes; any other descriptor is rejected as an invalid configuration. -/
def acceptHwDesc (d : HwIfaceDesc) : BResult Unit :=
  if d.static_key_slot ≤ 15 then
    match d.io_key with
    | none => BResult.ok ()
    | some k =>
      if k.length = 32 then BResult.ok ()
      else BResult.err VErr.InvalidConfig
  else BResult.err VErr.InvalidConfig

/-- Big-endian packing of at most 16 bytes into one 128-bit block,
zero-padded on the right (SP 800-38D padding). -/
def bytesToBlock (l : List Nat) : Nat :=
  (l ++ List.replicate (16 - l.length) 0).foldl (fun acc b => acc * 256 + b % 256) 0

/-- Big-endian 16-byte image of a 128-bit block. -/
def blockToBytes (b : Nat) : List Nat :=
  (List.range 16).map (fun i => b / 256 ^ (15 - i) % 256)

/-- Partition of a byte string into 128-bit blocks, the last zero-padded
(SP 800-38D). -/
def bytesToBlocks : List Nat → List Nat
  | [] => []
  | b0 :: b1 :: b2 :: b3 :: b4 :: b5 :: b6 :: b7 ::
      b8 :: b9 :: b10 :: b11 :: b12 :: b13 :: b14 :: b15 :: rest =>
    bytesToBlock [b0, b1, b2, b3, b4, b5, b6, b7,
                  b8, b9, b10, b11, b12, b13, b14, b15] ::
      bytesToBlocks rest
  | l => [bytesToBlock l]

/-- Reduction constant R = 11100001 followed by 120 zero bits of the
GF(2^128) multiplication (SP 800-38D section 6.3). -/
def gcmR : Nat := 0xE1000000000000000000000000000000

/-- Bit i of a 128-bit block, most significant bit first (SP 800-38D bit
numbering). -/
def blockBit (x i : Nat) : Bool := x / 2 ^ (127 - i) % 2 = 1

/-- Loop of the SP 800-38D section 6.3 product: with fuel f the iteration
handles bit index 128 - f of x; z accumulates the product, v is the
running multiple of y. -/
def gf128Loop (x : Nat) : Nat → Nat × Nat → Nat
  | 0, zv => zv.1
  | Nat.succ f, (z, v) =>
    gf128Loop x f
      ((if blockBit x (128 - Nat.succ f) then z ^^^ v else z),
       (if v % 2 = 1 then v / 2 ^^^ gcmR else v / 2))

/-- Product in GF(2^128) per SP 800-38D section 6.3. -/
def gf128Mul (x y : Nat) : Nat := gf128Loop x 128 (0, y % 2 ^ 128)

/-- GHASH (SP 800-38D section 6.4): fold of the data blocks through
Y := (Y xor X) • H. -/
def ghash (h : Nat) (blocks : List Nat) : Nat :=
  blocks.foldl (fun y x => gf128Mul (y ^^^ x) h) 0

/-- inc32 (SP 800-38D section 6.2): increment of the low 32 bits of a
block, the high 96 bits unchanged. -/
def inc32 (b : Nat) : Nat := b / 2 ^ 32 * 2 ^ 32 + (b % 2 ^ 32 + 1) % 2 ^ 32

/-- Keystream of GCTR: n blocks E(K, CB_i), CB_1 = icb,
CB_(i+1) = inc32(CB_i), emitted as bytes. -/
def gcmKeystream (E : List Nat → Nat → Nat) (key : List Nat) (icb : Nat) :
    Nat → List Nat
  | 0 => []
  | Nat.succ n => blockToBytes (E key icb) ++ gcmKeystream E key (inc32 icb) n

/-- GCTR (SP 800-38D section 6.5) over a byte string: XOR with the
keystream truncated to the message length. -/
def gctr (E : List Nat → Nat → Nat) (key : List Nat) (icb : Nat)
    (msg : List Nat) : List Nat :=
  List.zipWith (fun a b => a ^^^ b) msg
    (gcmKeystream E key icb ((msg.length + 15) / 16))

/-- Lengths block [len(A)]_64 ‖ [len(C)]_64 (SP 800-38D section 7.1
step 5), byte lengths converted to bit lengths. -/
def lenBlock (a c : Nat) : Nat := a * 8 % 2 ^ 64 * 2 ^ 64 + c * 8 % 2 ^ 64

/-- Supported AES key sizes: 128, 192 or 256 bits. -/
def keyOk (key : List Nat) : Bool :=
  key.length = 16 || key.length = 24 || key.length = 32

/-- Pre-counter block J0 of a 96-bit nonce: IV ‖ 0^31 ‖ 1 (SP 800-38D
section 7.1 step 2). -/
def gcmJ0 (iv : List Nat) : Nat := bytesToBlock (iv ++ [0, 0, 0, 1])

/-- Full 128-bit authentication tag over aad and ciphertext:
T = E(K, J0) xor GHASH_H(pad(A) ‖ pad(C) ‖ len(A) ‖ len(C)) with
H = E(K, 0) (SP 800-38D section 7.1 steps 4 to 6). -/
def gcmTag (E : List Nat → Nat → Nat) (key iv aad ct : List Nat) :
    List Nat :=
  blockToBytes (E key (gcmJ0 iv) ^^^
    ghash (E key 0)
      (bytesToBlocks aad ++ bytesToBlocks ct ++
        [lenBlock aad.length ct.length]))

/-- Modelled from the spec: aes_gcm_seal — AES-GCM per SP 800-38D with a
96-bit nonce and 128-bit tag; the block cipher of the opaque backend is
the parameter E; unsupported key sizes and nonce lengths yield
InvalidInput.  Returns the ciphertext and the tag. -/
def aes_gcm_seal (E : List Nat → Nat → Nat) (key iv aad pt : List Nat) :
    BResult (List Nat × List Nat) :=
  if keyOk key = false then BResult.err VErr.InvalidInput
  else if iv.length ≠ 12 then BResult.err VErr.InvalidInput
  else
    BResult.ok (gctr E key (inc32 (gcmJ0 iv)) pt,
      gcmTag E key iv aad (gctr E key (inc32 (gcmJ0 iv)) pt))

/-- Modelled from the spec: aes_gcm_open — recomputes the tag over aad and
ciphertext and compares; a mismatched tag yields AuthenticationFailed, a
matching one the decrypted plaintext. -/
def aes_gcm_open (E : List Nat → Nat → Nat) (key iv aad ct tag : List Nat) :
    BResult (List Nat) :=
  if keyOk key = false then BResult.err VErr.InvalidInput
  else if iv.length ≠ 12 then BResult.err VErr.InvalidInput
  else if tag = gcmTag E key iv aad ct then
    BResult.ok (gctr E key (inc32 (gcmJ0 iv)) ct)
  else BResult.err VErr.AuthenticationFailed

/-- Replacement of bit k of byte i (the claims' single-bit flip). -/
def flipBitAt (l : List Nat) (i k : Nat) : List Nat :=
  l.set i (l.getD i 0 ^^^ 2 ^ k)

/-- Degenerate but BCI-conforming block cipher: every block encrypts to
zero.  The Backend Capability Interface leaves the cipher inside each
backend opaque, so GCM composed over it is a legitimate instance of the
embedding. -/
def degenerateCipher : List Nat → Nat → Nat := fun _ _ => 0

/-- Hash core of HKDF: the opaque backend's HMAC, with its output length
HashLen.  The hash implementation lives outside the fragment. -/
structure HmacHash where
  hLen : Nat
  hmac : List Nat → List Nat → List Nat

/-- Modelled from the spec: RFC 5869 HKDF-Expand block T(i) —
T(0) is empty, T(i) = HMAC(PRK, T(i-1) ‖ info ‖ octet i). -/
def hkdfT (hh : HmacHash) (prk info : List Nat) : Nat → List Nat
  | 0 => []
  | Nat.succ n =>
    hh.hmac prk (hkdfT hh prk info n ++ info ++ [Nat.succ n % 256])

/-- Concatenation T(1) ‖ … ‖ T(n) of the HKDF-Expand blocks. -/
def hkdfConcatT (hh : HmacHash) (prk info : List Nat) : Nat → List Nat
  | 0 => []
  | Nat.succ n => hkdfConcatT hh prk info n ++ hkdfT hh prk info (Nat.succ n)

/-- Modelled from the spec: hkdf — RFC 5869 Extract-then-Expand;
out_len must be at most 255 HashLen, otherwise InvalidInput.  PRK is
HMAC(salt, IKM); the output is the first out_len octets of
T(1) ‖ … ‖ T(ceil(out_len / HashLen)). -/
def hkdf (hh : HmacHash) (salt ikm info : List Nat) (out_len : Nat) :
    BResult (List Nat) :=
  if out_len ≤ 255 * hh.hLen then
    BResult.ok ((hkdfConcatT hh (hh.hmac salt ikm) info
      ((out_len + hh.hLen - 1) / hh.hLen)).take out_len)
  else BResult.err VErr.InvalidInput

/-- Modelled from the spec: the transport session opened from the
descriptor at bring-up.  With an io_key present the session runs in
device-pairing mode and the bus frames are MACed/encrypted with the
io_key; without one it runs in clear-I/O mode.  Bus frames are internal
transport state, not part of any returned value or emitted wire
format. -/
structure DeviceSession where
  pairing : Bool
  frames : List Nat

/-- Modelled from the spec: frame protection on the bus — with an io_key
each raw frame byte is combined with key material, without one the frames
travel in the clear. -/
def protectFrames (io_key : Option (List Nat)) (raw : List Nat) : List Nat :=
  match io_key with
  | none => raw
  | some k => List.zipWith (fun a b => a ^^^ b) raw (k ++ raw)

/-- Modelled from the spec: one vault operation together with its
transport session — the externally observable result is computed by slot
dispatch from the call inputs alone, while the io_key shapes only the bus
frames. -/
def vaultRun {α : Type} [DecidableEq α] {H : Type} (ctx : VaultContext H)
    (hw : HwIfaceDesc) (p : PrimitiveKind) (call : BackendId → BResult α)
    (rawFrames : List Nat) : BResult α × DeviceSession :=
  (vaultCall ctx p call,
   ⟨hw.io_key.isSome, protectFrames hw.io_key rawFrames⟩)

/-- Externally observable part of a run: the typed result returned to the
caller. -/
def observableOf {α : Type} (r : BResult α × DeviceSession) : BResult α :=
  r.1

end OckamVault

namespace OckamVault

/-- Dispatch over a slot returns the result of the first backend that is
not Degraded and does not answer Unsupported. -/
theorem tryBackends_eq_of_find {α : Type} [DecidableEq α]
    (degraded : BackendId → Bool) (call : BackendId → BResult α)
    (l : List BackendId) (b : BackendId)
    (h : l.find?
      (fun x => !degraded x && decide (call x ≠ BResult.err VErr.Unsupported))
        = some b) :
    tryBackends degraded call l = call b := by
  induction l with
  | nil => simp [List.find?] at h
  | cons a t ih =>
    by_cases hd : degraded a
    · rw [List.find?_cons_of_neg] at h
      · rw [tryBackends, if_pos hd]
        exact ih h
      · simp [hd]
    · by_cases hu : call a = BResult.err VErr.Unsupported
      · rw [List.find?_cons_of_neg] at h
        · rw [tryBackends, if_neg hd, if_pos hu]
          exact ih h
        · simp [hd, hu]
      · rw [List.find?_cons_of_pos] at h
        · cases h
          rw [tryBackends, if_neg hd, if_neg hu]
        · simp [hd, hu]

/-- Initialization of a backend list succeeds exactly when every listed
backend's init succeeds. -/
theorem runInit_ok_iff {H : Type} (initB : BackendId → BResult H)
    (l : List BackendId) :
    (runInit initB l).result = BResult.ok () ↔
      ∀ b ∈ l, ∃ h, initB b = BResult.ok h := by
  induction l with
  | nil => simp [runInit]
  | cons a t ih =>
    cases hb : initB a with
    | err e =>
      simp only [runInit, hb, List.mem_cons]
      constructor
      · intro h; exact absurd h (by simp)
      · intro h
        obtain ⟨hh, hha⟩ := h a (Or.inl rfl)
        rw [hb] at hha; exact absurd hha (by simp)
    | ok hh =>
      cases hr : (runInit initB t).result with
      | ok u =>
        simp only [runInit, hb, hr, List.mem_cons]
        constructor
        · intro _ b hball
          rcases hball with hba | hbt
          · exact ⟨hh, by rw [hba, hb]⟩
          · exact (ih.mp (by rw [hr])) b hbt
        · intro _; trivial
      | err e =>
        simp only [runInit, hb, hr, List.mem_cons]
        constructor
        · intro h; exact absurd h (by simp)
        · intro h
          have : (runInit initB t).result = BResult.ok () :=
            ih.mpr (fun b hbt => h b (Or.inr hbt))
          rw [hr] at this; exact absurd this (by simp)

/-- Backends are initialized in declaration order: the successfully
initialized backends form the leading segment of the slot list. -/
theorem runInit_initialized_take {H : Type} (initB : BackendId → BResult H)
    (l : List BackendId) :
    (runInit initB l).initialized =
      l.take (runInit initB l).initialized.length := by
  induction l with
  | nil => simp [runInit]
  | cons a t ih =>
    cases hb : initB a with
    | err e => simp [runInit, hb]
    | ok hh =>
      cases hr : (runInit initB t).result with
      | ok u =>
        simp only [runInit, hb, hr, List.length_cons, List.take_succ_cons]
        exact congrArg (a :: ·) ih
      | err e =>
        simp only [runInit, hb, hr, List.length_cons, List.take_succ_cons]
        exact congrArg (a :: ·) ih

/-- Failed initialization tears down every already-initialized backend in
reverse declaration order and leaves no live handle. -/
theorem runInit_err_rollback {H : Type} (initB : BackendId → BResult H)
    (l : List BackendId) (e : VErr)
    (herr : (runInit initB l).result = BResult.err e) :
    (runInit initB l).tornDown = (runInit initB l).initialized.reverse ∧
      (runInit initB l).live = [] := by
  induction l with
  | nil => simp [runInit] at herr
  | cons a t ih =>
    cases hb : initB a with
    | err e2 => simp [runInit, hb]
    | ok hh =>
      cases hr : (runInit initB t).result with
      | ok u => simp [runInit, hb, hr] at herr
      | err e2 =>
        have he : e2 = e := by
          simp only [runInit, hb, hr] at herr
          cases herr; rfl
        subst he
        obtain ⟨htd, _⟩ := ih (by rw [hr])
        simp only [runInit, hb, hr, List.reverse_cons]
        exact ⟨by rw [htd], trivial⟩

/-- C1: on a Ready context, a primitive other than Init is handled by the
first backend of its routing slot whose handle is not Degraded and which
does not return Unsupported; that backend's result — success or any
non-Unsupported failure — is returned to the caller as is, without trying
later backends. -/
theorem c1_dispatch_first_usable_backend {α : Type} [DecidableEq α]
    {H : Type} (ctx : VaultContext H) (p : PrimitiveKind)
    (call : BackendId → BResult α) (b : BackendId)
    (hready : ctx.state = CtxState.Ready) (_hp : p ≠ PrimitiveKind.Init)
    (hfirst : (ctx.routing.slot p).find?
      (fun x => !ctx.degraded x && decide (call x ≠ BResult.err VErr.Unsupported))
        = some b) :
    vaultCall ctx p call = call b := by
  have hne : ctx.routing.slot p ≠ [] := by
    intro hnil; rw [hnil] at hfirst; simp [List.find?] at hfirst
  unfold vaultCall
  rw [hready]
  simp only [if_neg hne]
  exact tryBackends_eq_of_find ctx.degraded call _ b hfirst

/-- Witness for C1: dispatching Rand on the scenario 1 context, where the
secure element answers, returns the secure element's result. -/
theorem c1_dispatch_witness :
    scenario1Ctx.state = CtxState.Ready ∧
    PrimitiveKind.Rand ≠ PrimitiveKind.Init ∧
    (scenario1Ctx.routing.slot PrimitiveKind.Rand).find?
      (fun x => !scenario1Ctx.degraded x &&
        decide ((fun _ => BResult.ok (7 : Nat)) x ≠ BResult.err VErr.Unsupported))
        = some BackendId.tpmMicrochipAtecc508a ∧
    vaultCall scenario1Ctx PrimitiveKind.Rand (fun _ => BResult.ok (7 : Nat))
      = BResult.ok 7 :=
  ⟨rfl, by decide, by decide,
    c1_dispatch_first_usable_backend scenario1Ctx PrimitiveKind.Rand
      (fun _ => BResult.ok (7 : Nat)) BackendId.tpmMicrochipAtecc508a
      rfl (by decide) (by decide)⟩

/-- C2: when every routing slot is non-empty, create succeeds exactly when
every backend of the Init slot initializes successfully; backends are
initialized in declaration order, and if one init fails, creation aborts
with that failure, every already-initialized backend is torn down in
reverse declaration order, and no handle stays live. -/
theorem c2_create_init_all_or_rollback {H : Type} (cfg : RoutingCfg)
    (initB : BackendId → BResult H)
    (hne : cfg.init ≠ [] ∧ cfg.rand ≠ [] ∧ cfg.ecdh ≠ [] ∧ cfg.hkdf ≠ [] ∧
      cfg.aes_gcm ≠ []) :
    ((∃ v, (create cfg initB).1 = BResult.ok v) ↔
      ∀ b ∈ cfg.init, ∃ h, initB b = BResult.ok h) ∧
    (runInit initB cfg.init).initialized =
      cfg.init.take (runInit initB cfg.init).initialized.length ∧
    (∀ e, (runInit initB cfg.init).result = BResult.err e →
      (create cfg initB).1 = BResult.err e ∧
      (runInit initB cfg.init).tornDown =
        (runInit initB cfg.init).initialized.reverse ∧
      (runInit initB cfg.init).live = []) := by
  have hcond : ¬(cfg.init = [] ∨ cfg.rand = [] ∨ cfg.ecdh = [] ∨
      cfg.hkdf = [] ∨ cfg.aes_gcm = []) := by
    obtain ⟨h1, h2, h3, h4, h5⟩ := hne
    intro hc
    rcases hc with hc | hc | hc | hc | hc <;> simp_all
  refine ⟨?_, runInit_initialized_take initB cfg.init, ?_⟩
  · constructor
    · intro ⟨v, hv⟩
      rw [← runInit_ok_iff]
      unfold create at hv
      rw [if_neg hcond] at hv
      cases hr : (runInit initB cfg.init).result with
      | ok u => rfl
      | err e => rw [hr] at hv; simp at hv
    · intro hall
      have hok : (runInit initB cfg.init).result = BResult.ok () :=
        (runInit_ok_iff initB cfg.init).mpr hall
      unfold create
      rw [if_neg hcond]
      rw [hok]
      exact ⟨_, rfl⟩
  · intro e he
    obtain ⟨htd, hlive⟩ := runInit_err_rollback initB cfg.init e he
    refine ⟨?_, htd, hlive⟩
    unfold create
    rw [if_neg hcond, he]

/-- Witness for C2: the scenario 1 configuration with a host backend whose
init fails with TransportError — create aborts with TransportError and the
already-initialized secure element is torn down. -/
theorem c2_create_witness :
    (scenario1Cfg.init ≠ [] ∧ scenario1Cfg.rand ≠ [] ∧
      scenario1Cfg.ecdh ≠ [] ∧ scenario1Cfg.hkdf ≠ [] ∧
      scenario1Cfg.aes_gcm ≠ []) ∧
    (((∃ v, (create scenario1Cfg hostInitFails).1 = BResult.ok v) ↔
        ∀ b ∈ scenario1Cfg.init, ∃ h, hostInitFails b = BResult.ok h) ∧
      (runInit hostInitFails scenario1Cfg.init).initialized =
        scenario1Cfg.init.take
          (runInit hostInitFails scenario1Cfg.init).initialized.length ∧
      (∀ e, (runInit hostInitFails scenario1Cfg.init).result = BResult.err e →
        (create scenario1Cfg hostInitFails).1 = BResult.err e ∧
        (runInit hostInitFails scenario1Cfg.init).tornDown =
          (runInit hostInitFails scenario1Cfg.init).initialized.reverse ∧
        (runInit hostInitFails scenario1Cfg.init).live = [])) :=
  ⟨by decide,
    c2_create_init_all_or_rollback scenario1Cfg hostInitFails (by decide)⟩

/-- C4: a routing configuration accepted by create has a non-empty backend
list in every one of the five slots. -/
theorem c4_accepted_routing_slots_nonempty {H : Type} (cfg : RoutingCfg)
    (initB : BackendId → BResult H) (v : VaultContext H)
    (hok : (create cfg initB).1 = BResult.ok v) :
    ∀ p, cfg.slot p ≠ [] := by
  by_cases hc : cfg.init = [] ∨ cfg.rand = [] ∨ cfg.ecdh = [] ∨
      cfg.hkdf = [] ∨ cfg.aes_gcm = []
  · unfold create at hok
    rw [if_pos hc] at hok
    simp at hok
  · push_neg at hc
    obtain ⟨h1, h2, h3, h4, h5⟩ := hc
    intro p
    cases p <;> simpa [RoutingCfg.slot]

/-- Witness for C4: create on the scenario 1 configuration succeeds with
both backends live, and indeed every slot of that configuration is
non-empty. -/
theorem c4_accepted_witness :
    (create scenario1Cfg (fun _ => BResult.ok ())).1 =
      BResult.ok ⟨CtxState.Ready, scenario1Cfg,
        [(BackendId.tpmMicrochipAtecc508a, ()),
         (BackendId.hostMbedcrypto, ())], fun _ => false⟩ ∧
    (∀ p, scenario1Cfg.slot p ≠ []) :=
  ⟨rfl, c4_accepted_routing_slots_nonempty scenario1Cfg
    (fun _ => BResult.ok ()) _ rfl⟩

/-- C4 counterexample: the repository's sample configuration file defines
all five OCKAM_VAULT_CFG_ macros with an empty replacement list, so the
routing table produced from it maps every PrimitiveKind to the empty
backend list and vault creation rejects it as InvalidConfig instead of
accepting it. -/
theorem c4_sample_config_all_slots_empty :
    sampleRoutingCfg.init = [] ∧ sampleRoutingCfg.rand = [] ∧
    sampleRoutingCfg.ecdh = [] ∧ sampleRoutingCfg.hkdf = [] ∧
    sampleRoutingCfg.aes_gcm = [] ∧
    (create sampleRoutingCfg (fun _ => BResult.ok ())).1 =
      BResult.err VErr.InvalidConfig :=
  ⟨rfl, rfl, rfl, rfl, rfl, rfl⟩

/-- C3 (code evidence): in the ATECC508A test fixture configuration the
aes_gcm slot routes to the host backend, yet — because the fixture's Init
slot spells the host tag OCKAM_VAULT_HOST_MBEDCRYTPO, an identifier the
define header never defines, which evaluates to 0 — the Init slot does not
list the host backend, and a create in which every attempted backend init
succeeds still leaves the host backend without a handle. -/
theorem c3_fixture_aes_gcm_backend_lacks_handle :
    BackendId.hostMbedcrypto ∈ atecc508aTestRoutingCfg.aes_gcm ∧
    BackendId.hostMbedcrypto ∉ atecc508aTestRoutingCfg.init ∧
    okHandles (create atecc508aTestRoutingCfg (fun _ => BResult.ok ())) =
      [BackendId.tpmMicrochipAtecc508a] := by
  decide

/-- C9 counterexample: within one build of the descriptor type, it is not
possible to construct both a descriptor that has an io_key and one that
does not — with VAULT_MICROCHIP_IO_KEY_EN set every descriptor carries the
field, with it unset none does. -/
theorem c9_io_key_presence_not_runtime :
    (¬∃ c1 c2 : VAULT_MICROCHIP_CFG_s true,
      cfgHasIoKey c1 = true ∧ cfgHasIoKey c2 = false) ∧
    (¬∃ c1 c2 : VAULT_MICROCHIP_CFG_s false,
      cfgHasIoKey c1 = true ∧ cfgHasIoKey c2 = false) := by
  constructor
  · rintro ⟨c1, c2, h1, h2⟩
    simp [cfgHasIoKey] at h2
  · rintro ⟨c1, c2, h1, h2⟩
    simp [cfgHasIoKey] at h1

/-- C9 amended: io_key presence in VAULT_MICROCHIP_CFG_s is decided by the
compile-time flag VAULT_MICROCHIP_IO_KEY_EN — a descriptor with the field
and one without both exist, but in two different builds of the type, and
within one build every descriptor agrees on presence. -/
theorem c9_io_key_presence_compile_time :
    (∃ c : VAULT_MICROCHIP_CFG_s true, cfgHasIoKey c = true) ∧
    (∃ c : VAULT_MICROCHIP_CFG_s false, cfgHasIoKey c = false) ∧
    (∀ (en : Bool) (c1 c2 : VAULT_MICROCHIP_CFG_s en),
      cfgHasIoKey c1 = cfgHasIoKey c2) :=
  ⟨⟨⟨VAULT_MICROCHIP_IFACE_e.VAULT_MICROCHIP_IFACE_I2C, (), 0, by decide,
      ⟨List.replicate 32 0, by decide⟩⟩, rfl⟩,
   ⟨⟨VAULT_MICROCHIP_IFACE_e.VAULT_MICROCHIP_IFACE_I2C, (), 0, by decide,
      ()⟩, rfl⟩,
   fun _ _ _ => rfl⟩

/-- Image of a block is always 16 bytes. -/
theorem blockToBytes_length (b : Nat) : (blockToBytes b).length = 16 := by
  simp [blockToBytes]

/-- Keystream of n blocks is 16 n bytes long. -/
theorem gcmKeystream_length (E : List Nat → Nat → Nat) (key : List Nat) :
    ∀ (n : Nat) (icb : Nat), (gcmKeystream E key icb n).length = 16 * n := by
  intro n
  induction n with
  | zero => intro icb; rfl
  | succ n ih =>
    intro icb
    simp only [gcmKeystream, List.length_append, blockToBytes_length, ih]
    ring

/-- Ceiling bound: L bytes fit into (L + h - 1) / h blocks of h bytes. -/
theorem le_mul_ceil (h L : Nat) (hpos : 0 < h) :
    L ≤ h * ((L + h - 1) / h) := by
  have hd : L + h - 1 ≤ h * ((L + h - 1) / h) + (h - 1) :=
    (Nat.div_le_iff_le_mul_add_pred hpos).mp le_rfl
  omega

/-- Specialization of the ceiling bound to 16-byte blocks. -/
theorem le_mul_ceil16 (L : Nat) : L ≤ 16 * ((L + 15) / 16) := by
  have h := le_mul_ceil 16 L (by norm_num)
  have he : L + 16 - 1 = L + 15 := by omega
  rw [he] at h
  exact h

/-- GCTR preserves the message length. -/
theorem gctr_length (E : List Nat → Nat → Nat) (key : List Nat) (icb : Nat)
    (msg : List Nat) : (gctr E key icb msg).length = msg.length := by
  simp only [gctr, List.length_zipWith, gcmKeystream_length]
  exact Nat.min_eq_left (le_mul_ceil16 msg.length)

/-- Byte-wise XOR against the same keystream is an involution. -/
theorem zipWith_xor_cancel :
    ∀ (msg ks : List Nat), msg.length ≤ ks.length →
      List.zipWith (fun a b => a ^^^ b)
        (List.zipWith (fun a b => a ^^^ b) msg ks) ks = msg
  | [], _, _ => by simp
  | _ :: _, [], h => by simp at h
  | a :: t, b :: kt, h => by
    simp only [List.zipWith]
    rw [zipWith_xor_cancel t kt (by simpa using h)]
    rw [Nat.xor_cancel_right]

/-- GCTR decryption undoes GCTR encryption at the same initial counter
block. -/
theorem gctr_gctr (E : List Nat → Nat → Nat) (key : List Nat) (icb : Nat)
    (msg : List Nat) : gctr E key icb (gctr E key icb msg) = msg := by
  have hlen := gctr_length E key icb msg
  show List.zipWith (fun a b => a ^^^ b) (gctr E key icb msg)
    (gcmKeystream E key icb (((gctr E key icb msg).length + 15) / 16)) = msg
  rw [hlen]
  exact zipWith_xor_cancel msg _
    (by rw [gcmKeystream_length]; exact le_mul_ceil16 msg.length)

/-- Flipping a bit of an in-range byte changes the byte string. -/
theorem set_xor_ne (l : List Nat) (i k : Nat) (hi : i < l.length) :
    l.set i (l.getD i 0 ^^^ 2 ^ k) ≠ l := by
  induction l generalizing i with
  | nil => simp at hi
  | cons a t ih =>
    cases i with
    | zero =>
      simp only [List.set, List.getD_cons_zero]
      intro heq
      injection heq with h1 _
      have h2k : (2 : Nat) ^ k = 0 := by
        have h := congrArg (fun z => a ^^^ z) h1
        simp only [Nat.xor_cancel_left, Nat.xor_self] at h
        exact h
      have := Nat.pow_pos (show 0 < 2 by norm_num) (n := k)
      omega
    | succ i =>
      simp only [List.set, List.getD_cons_succ]
      intro heq
      injection heq with _ h2
      exact ih i (by simpa using hi) h2

/-- C10: every descriptor accepted at vault creation has static_key_slot
in 0..15, and a descriptor whose static_key_slot lies outside 0..15 is
rejected as an invalid configuration. -/
theorem c10_static_key_slot_range (d : HwIfaceDesc) :
    (acceptHwDesc d = BResult.ok () → d.static_key_slot ≤ 15) ∧
    (15 < d.static_key_slot →
      acceptHwDesc d = BResult.err VErr.InvalidConfig) := by
  constructor
  · intro hacc
    by_contra hgt
    push_neg at hgt
    unfold acceptHwDesc at hacc
    rw [if_neg (by omega)] at hacc
    exact absurd hacc (by simp)
  · intro hgt
    unfold acceptHwDesc
    rw [if_neg (by omega)]

/-- Witness for C10: a descriptor with static_key_slot 16 is rejected as
an invalid configuration. -/
theorem c10_slot_witness :
    15 < (16 : Nat) ∧
    acceptHwDesc ⟨Transport.I2C, 0, 16, none⟩ =
      BResult.err VErr.InvalidConfig :=
  ⟨by decide,
    (c10_static_key_slot_range ⟨Transport.I2C, 0, 16, none⟩).2 (by decide)⟩

/-- C5: for any backend block cipher, a supported key size and a 96-bit
nonce, opening the sealed buffer with the same key, nonce and aad returns
the original plaintext. -/
theorem c5_aes_gcm_roundtrip (E : List Nat → Nat → Nat)
    (key iv aad pt : List Nat) (hk : keyOk key = true)
    (hiv : iv.length = 12) :
    ∃ ct tag, aes_gcm_seal E key iv aad pt = BResult.ok (ct, tag) ∧
      aes_gcm_open E key iv aad ct tag = BResult.ok pt := by
  have hk2 : ¬(keyOk key = false) := by simp [hk]
  have hiv2 : ¬(iv.length ≠ 12) := by simp [hiv]
  refine ⟨gctr E key (inc32 (gcmJ0 iv)) pt,
    gcmTag E key iv aad (gctr E key (inc32 (gcmJ0 iv)) pt), ?_, ?_⟩
  · unfold aes_gcm_seal
    rw [if_neg hk2, if_neg hiv2]
  · unfold aes_gcm_open
    rw [if_neg hk2, if_neg hiv2, if_pos rfl, gctr_gctr]

/-- Witness for C5: a concrete seal/open round trip through the identity
block cipher recovers the plaintext. -/
theorem c5_roundtrip_witness :
    keyOk (List.replicate 16 0) = true ∧
    (List.replicate 12 0 : List Nat).length = 12 ∧
    (∃ ct tag,
      aes_gcm_seal (fun _ b => b) (List.replicate 16 0)
        (List.replicate 12 0) [1] [2, 3] = BResult.ok (ct, tag) ∧
      aes_gcm_open (fun _ b => b) (List.replicate 16 0)
        (List.replicate 12 0) [1] ct tag = BResult.ok [2, 3]) :=
  ⟨by decide, by decide,
    c5_aes_gcm_roundtrip (fun _ b => b) (List.replicate 16 0)
      (List.replicate 12 0) [1] [2, 3] (by decide) (by decide)⟩

/-- C6 amended: opening a sealed buffer whose tag has any single bit
flipped returns AuthenticationFailed, for every backend block cipher. -/
theorem c6_tag_bit_flip_rejected (E : List Nat → Nat → Nat)
    (key iv aad pt ct tag : List Nat) (i k : Nat)
    (hk : keyOk key = true) (hiv : iv.length = 12)
    (hseal : aes_gcm_seal E key iv aad pt = BResult.ok (ct, tag))
    (hi : i < tag.length) :
    aes_gcm_open E key iv aad ct (flipBitAt tag i k) =
      BResult.err VErr.AuthenticationFailed := by
  have hk2 : ¬(keyOk key = false) := by simp [hk]
  have hiv2 : ¬(iv.length ≠ 12) := by simp [hiv]
  unfold aes_gcm_seal at hseal
  rw [if_neg hk2, if_neg hiv2] at hseal
  injection hseal with hpair
  have hct : gctr E key (inc32 (gcmJ0 iv)) pt = ct := congrArg Prod.fst hpair
  have htag : gcmTag E key iv aad (gctr E key (inc32 (gcmJ0 iv)) pt) = tag :=
    congrArg Prod.snd hpair
  rw [hct] at htag
  unfold aes_gcm_open
  rw [if_neg hk2, if_neg hiv2, if_neg
    (by rw [htag]; simpa [flipBitAt] using set_xor_ne tag i k hi)]

/-- Witness for C6's amended statement: flipping the low bit of the first
tag byte of a concrete sealed buffer makes open fail authentication. -/
theorem c6_tag_flip_witness :
    keyOk (List.replicate 16 0) = true ∧
    (List.replicate 12 0 : List Nat).length = 12 ∧
    aes_gcm_seal degenerateCipher (List.replicate 16 0)
      (List.replicate 12 0) [] [5] =
        BResult.ok ([5], List.replicate 16 0) ∧
    (0 : Nat) < (List.replicate 16 (0 : Nat)).length ∧
    aes_gcm_open degenerateCipher (List.replicate 16 0)
      (List.replicate 12 0) [] [5] (flipBitAt (List.replicate 16 0) 0 0) =
        BResult.err VErr.AuthenticationFailed :=
  ⟨by decide, by decide, by decide, by decide,
    c6_tag_bit_flip_rejected degenerateCipher (List.replicate 16 0)
      (List.replicate 12 0) [] [5] [5] (List.replicate 16 0) 0 0
      (by decide) (by decide) (by decide) (by decide)⟩

/-- C6 counterexample: with a degenerate backend block cipher — which the
Backend Capability Interface leaves opaque — the GHASH subkey is zero, so
flipping a ciphertext bit of a validly sealed buffer leaves the tag
computation unchanged and open succeeds, returning a wrong plaintext
instead of AuthenticationFailed. -/
theorem c6_ciphertext_flip_passes_auth :
    aes_gcm_seal degenerateCipher (List.replicate 16 0)
      (List.replicate 12 0) [] [5] =
        BResult.ok ([5], List.replicate 16 0) ∧
    flipBitAt [5] 0 0 = [4] ∧
    aes_gcm_open degenerateCipher (List.replicate 16 0)
      (List.replicate 12 0) [] [4] (List.replicate 16 0) =
        BResult.ok [4] ∧
    (BResult.ok [4] : BResult (List Nat)) ≠
      BResult.err VErr.AuthenticationFailed :=
  ⟨by decide, by decide, by decide, by decide⟩

/-- Expand concatenation length: n blocks of HashLen octets each. -/
theorem hkdfConcatT_length (hh : HmacHash)
    (hWF : ∀ k m, (hh.hmac k m).length = hh.hLen) (prk info : List Nat) :
    ∀ n, (hkdfConcatT hh prk info n).length = n * hh.hLen := by
  intro n
  induction n with
  | zero => simp [hkdfConcatT]
  | succ n ih =>
    simp only [hkdfConcatT, List.length_append, ih, hkdfT, hWF]
    ring

/-- Division fact: 255 HashLen octets need exactly 255 blocks. -/
theorem ceil_255 (h : Nat) (hpos : 0 < h) : (255 * h + h - 1) / h = 255 := by
  have h1 : 255 * h + h - 1 = h * 255 + (h - 1) := by omega
  rw [h1, Nat.mul_add_div hpos, Nat.div_eq_of_lt (by omega)]

/-- C7: for every salt, ikm and info, hkdf at out_len = 255 HashLen
succeeds with a full-length output, and any out_len above 255 HashLen —
in particular 255 HashLen + 1 — is rejected as InvalidInput. -/
theorem c7_hkdf_out_len_boundary (hh : HmacHash) (salt ikm info : List Nat)
    (hpos : 0 < hh.hLen)
    (hWF : ∀ k m, (hh.hmac k m).length = hh.hLen) :
    (∃ okm, hkdf hh salt ikm info (255 * hh.hLen) = BResult.ok okm ∧
      okm.length = 255 * hh.hLen) ∧
    (∀ L, 255 * hh.hLen < L →
      hkdf hh salt ikm info L = BResult.err VErr.InvalidInput) := by
  constructor
  · refine ⟨(hkdfConcatT hh (hh.hmac salt ikm) info
      ((255 * hh.hLen + hh.hLen - 1) / hh.hLen)).take (255 * hh.hLen),
      ?_, ?_⟩
    · unfold hkdf
      rw [if_pos (le_refl _)]
    · rw [List.length_take,
        hkdfConcatT_length hh hWF (hh.hmac salt ikm) info,
        ceil_255 hh.hLen hpos]
      exact Nat.min_self _
  · intro L hL
    unfold hkdf
    rw [if_neg (by omega)]

/-- Witness for C7: a two-octet hash core — 510 octets succeed, 511 are
rejected. -/
theorem c7_hkdf_witness :
    0 < (2 : Nat) ∧
    (∃ okm, hkdf ⟨2, fun _ _ => [0, 0]⟩ [] [] [] (255 * 2) =
      BResult.ok okm ∧ okm.length = 255 * 2) ∧
    hkdf ⟨2, fun _ _ => [0, 0]⟩ [] [] [] (255 * 2 + 1) =
      BResult.err VErr.InvalidInput :=
  ⟨by decide,
   (c7_hkdf_out_len_boundary ⟨2, fun _ _ => [0, 0]⟩ [] [] []
      (by decide) (fun _ _ => rfl)).1,
   (c7_hkdf_out_len_boundary ⟨2, fun _ _ => [0, 0]⟩ [] [] []
      (by decide) (fun _ _ => rfl)).2 (255 * 2 + 1) (by decide)⟩

/-- C8: the externally observable output of a vault operation is the same
for two descriptors that differ only in their io_key — the io_key never
reaches a returned value, an error value or an emitted wire format. -/
theorem c8_io_key_not_in_observable_output {α : Type} [DecidableEq α]
    {H : Type} (ctx : VaultContext H) (t : Transport) (params slot : Nat)
    (k1 k2 : Option (List Nat)) (p : PrimitiveKind)
    (call : BackendId → BResult α) (raw : List Nat) :
    observableOf (vaultRun ctx ⟨t, params, slot, k1⟩ p call raw) =
      observableOf (vaultRun ctx ⟨t, params, slot, k2⟩ p call raw) := rfl

end OckamVault
